import Mathlib

/-!
Verification of the time-acquisition core of the ntpcl repository against its
specification.

Durations (`time.Duration`) and instants (`time.Time`) are modelled as `Int`
nanosecond counts; instants count nanoseconds since the Unix epoch.  Go's
integer division on `int64` truncates toward zero, which is `Int.tdiv`.
Network effects (the NTP query, the UDP read, name resolution) are modelled
as explicit inputs: the bytes read, the query outcomes, and the collected
sample batch are parameters of the embedded functions.
-/

namespace Ntpcl

/-- Mirror of `sampleResult` in `timeutils`: the clock offset and round-trip
time of one successful sample (durations in ns) and the instant the server
was approximately queried (ns since the Unix epoch). -/
structure sampleResult where
  offset : Int
  rtt : Int
  timestamp : Int
deriving DecidableEq

/-- Nanoseconds from the Unix epoch to Go's zero `time.Time`
(January 1, year 1, 00:00:00 UTC): -62135596800 seconds.  The Go code folds
`latestTimestamp` starting from the zero value of `time.Time`. -/
def goZeroTimeNs : Int := -62135596800000000000

/-- The `sampleCount` constant of `GatherHighAccuracyTime`. -/
def sampleCount : Nat := 10

/-- Insertion of a sample into a list that is sorted by ascending rtt. -/
def insertByRTT (s : sampleResult) : List sampleResult → List sampleResult
  | [] => [s]
  | t :: ts => if s.rtt < t.rtt then s :: t :: ts else t :: insertByRTT s ts

/-- Sorting the sample slice by ascending rtt, mirroring
`sort.Slice(samples, func(i, j int) bool { return samples[i].rtt < samples[j].rtt })`. -/
def sortByRTT : List sampleResult → List sampleResult
  | [] => []
  | s :: ss => insertByRTT s (sortByRTT ss)

/-- The trimmed middle of the sorted batch, mirroring
`validSamples := samples[sampleCount/5 : 4*sampleCount/5]` after the sort:
the Go slice `l[lo:hi]` is `(l.take hi).drop lo`. -/
def retainedSamples (samples : List sampleResult) : List sampleResult :=
  ((sortByRTT samples).take (4 * sampleCount / 5)).drop (sampleCount / 5)

/-- Error of `GatherHighAccuracyTime`, mirroring
`fmt.Errorf("failed to gather enough samples, got %d out of %d", ...)`. -/
inductive GatherErr where
  | insufficientSamples (got want : Nat)
deriving DecidableEq

/-- The values computed by the estimation part of `GatherHighAccuracyTime`
(the function returns only `adjusted`; the averages and the latest retained
timestamp are intermediate values that the code also prints). -/
structure estimateResult where
  adjusted : Int
  avgOffset : Int
  avgRTT : Int
  latest : Int
deriving DecidableEq

/-- Loop body of the `latestTimestamp` accumulation:
`if sample.timestamp.After(latestTimestamp) { latestTimestamp = sample.timestamp }`. -/
def latestStep (acc : Int) (s : sampleResult) : Int :=
  if acc < s.timestamp then s.timestamp else acc

/-- Estimation part of `GatherHighAccuracyTime` on the retained samples:
totals accumulated by the loop, truncating mean (Go duration division),
latest retained timestamp folded from the zero `time.Time`, and
`adjustedTime := time.Now().Add(averageOffset).Add(-elapsedSinceLastSample)`
with `elapsedSinceLastSample := time.Since(latestTimestamp)`. -/
def estimateFromRetained (now : Int) (validSamples : List sampleResult) : estimateResult :=
  let totalOffset := validSamples.foldl (fun acc s => acc + s.offset) 0
  let totalRTT := validSamples.foldl (fun acc s => acc + s.rtt) 0
  let latestTimestamp := validSamples.foldl latestStep goZeroTimeNs
  let averageOffset := Int.tdiv totalOffset (validSamples.length : Int)
  let averageRTT := Int.tdiv totalRTT (validSamples.length : Int)
  let elapsedSinceLastSample := now - latestTimestamp
  { adjusted := now + averageOffset - elapsedSinceLastSample
  , avgOffset := averageOffset
  , avgRTT := averageRTT
  , latest := latestTimestamp }

/-- Deterministic core of `GatherHighAccuracyTime`, taking the collected
batch as input: below `sampleCount` samples it fails, otherwise it sorts by
rtt, keeps the middle 60% and estimates. -/
def gatherHighAccuracyEstimate (now : Int) (samples : List sampleResult) :
    Except GatherErr estimateResult :=
  if samples.length < sampleCount then
    Except.error (GatherErr.insufficientSamples samples.length sampleCount)
  else
    Except.ok (estimateFromRetained now (retainedSamples samples))

/-- Construction of one sample in the collection goroutine:
`start := time.Now()`, the query returns at instant `respNs`,
`rtt := time.Since(start)` and
`timestamp: start.Add(rtt / 2)` (duration division truncates). -/
def mkSample (offset startNs respNs : Int) : sampleResult :=
  { offset := offset
  , rtt := respNs - startNs
  , timestamp := startNs + Int.tdiv (respNs - startNs) 2 }

/-- Relevant fields of the external NTP library response. -/
structure NtpResp where
  clockOffset : Int
  rtt : Int
deriving DecidableEq

/-- Errors of the embedded fetch paths. -/
inductive FetchErr where
  | queryError
  | gatherErr (e : GatherErr)
deriving DecidableEq

/-- Single-shot branch of `timeutils.FetchTimeFromNTP`: one `ntp.Query`
(outcome `q1`), on failure the error is returned as is; on success
`serverTime := time.Now().Add(response.ClockOffset)` with the response rtt.
The second component counts the queries issued. -/
def FetchTimeFromNTP_singleShot (now : Int) (q1 : Option NtpResp) :
    Except FetchErr (Int × Int) × Nat :=
  match q1 with
  | some r => (Except.ok (now + r.clockOffset, r.rtt), 1)
  | none => (Except.error FetchErr.queryError, 1)

/-- High-accuracy branch of `timeutils.FetchTimeFromNTP`: it delegates to
`GatherHighAccuracyTime` and returns `(serverTime, 0, nil, serverToUse, nil)`,
i.e. a zero round-trip time. -/
def FetchTimeFromNTP_highAccuracy (now : Int) (samples : List sampleResult) :
    Except FetchErr (Int × Int) :=
  match gatherHighAccuracyEstimate now samples with
  | Except.error e => Except.error (FetchErr.gatherErr e)
  | Except.ok r => Except.ok (r.adjusted, 0)

/-- Legacy `fetchTimeFromNTP` of the old main package (src/unnamed/part_003):
`queryNTPTime`, and on failure one retry through `querySNTPTime` (identical
mechanics, label "SNTP") before surfacing the error.  `q1`, `q2` are the
outcomes of the first and second query; the `Nat` counts queries issued. -/
def fetchTimeFromNTP_legacy (now : Int) (q1 q2 : Option NtpResp) :
    Except FetchErr (Int × Int × String) × Nat :=
  match q1 with
  | some r => (Except.ok (now + r.clockOffset, r.rtt, "NTP"), 1)
  | none =>
    match q2 with
    | some r => (Except.ok (now + r.clockOffset, r.rtt, "SNTP"), 2)
    | none => (Except.error FetchErr.queryError, 2)

/-- Error of `FetchTimeFromTimeProtocol`: `fmt.Errorf("invalid response size")`. -/
inductive TimeProtoErr where
  | invalidResponseSize
deriving DecidableEq

/-- Parsing part of `FetchTimeFromTimeProtocol` (RFC 868) over the bytes read
from the UDP socket: unless exactly 4 bytes were read it fails with the
invalid-response-size error; otherwise the big-endian unsigned 32-bit
seconds-since-1900 count minus 2208988800 is the Unix timestamp. -/
def parseTimeProtocolResponse (buf : List Nat) : Except TimeProtoErr Int :=
  match buf with
  | [b0, b1, b2, b3] =>
    let seconds : Nat := ((b0 * 256 + b1) * 256 + b2) * 256 + b3
    Except.ok ((seconds : Int) - 2208988800)
  | _ => Except.error TimeProtoErr.invalidResponseSize

/-- Big-endian 4-byte encoding of a 32-bit value, as a wire encoder would
produce it (`binary.BigEndian.PutUint32`). -/
def encodeBE32 (n : Nat) : List Nat :=
  [n / 16777216 % 256, n / 65536 % 256, n / 256 % 256, n % 256]

/-- The source-selection fields and flags bound by the cobra root command. -/
structure Config where
  ntpServer : String
  httpURL : String
  daytimeServer : String
  timeProtocolServer : String
  windowsTimeServer : String
  highAccuracy : Bool
deriving DecidableEq

/-- Errors raised by the root command before or instead of a fetch. -/
inductive RunErr where
  | conflictingSources
  | incompatibleFlag
  | fetchFailed
deriving DecidableEq

/-- Mirror of `countNonEmptySources` in main.go. -/
def countNonEmptySources (sources : List String) : Nat :=
  sources.foldl (fun count s => if s ≠ "" then count + 1 else count) 0

/-- The source slice built by the root command:
`[]*string{&httpURL, &daytimeServer, &timeProtocolServer, &ntpServer, &windowsTimeServer}`. -/
def sourceFields (cfg : Config) : List String :=
  [cfg.httpURL, cfg.daytimeServer, cfg.timeProtocolServer, cfg.ntpServer,
   cfg.windowsTimeServer]

/-- `RunE` of the cobra root command: more than one non-empty source is the
conflicting-sources error; `highAccuracy && ntpServer == "" && windowsTimeServer == ""`
is the incompatible-flag error; only then is `fetchTime` invoked (modelled by
the `fetchResult` oracle).  The second component counts fetch calls. -/
def run (cfg : Config) (fetchResult : Except FetchErr Int) :
    Except RunErr Int × Nat :=
  if countNonEmptySources (sourceFields cfg) > 1 then
    (Except.error RunErr.conflictingSources, 0)
  else if cfg.highAccuracy && (cfg.ntpServer == "") && (cfg.windowsTimeServer == "") then
    (Except.error RunErr.incompatibleFlag, 0)
  else
    match fetchResult with
    | Except.ok t => (Except.ok t, 1)
    | Except.error _ => (Except.error RunErr.fetchFailed, 1)

/-- The i-th sample of the spec's worked example: round-trip time i ms,
offset 100 ms; the observation instant is taken as i ns to keep the batch
concrete. -/
def specSample (i : Nat) : sampleResult :=
  { offset := 100000000, rtt := 1000000 * i, timestamp := (i : Int) }

/-- The spec's worked example batch: 10 samples, rtts 1..10 ms, all offsets
100 ms. -/
def specBatch : List sampleResult :=
  [specSample 1, specSample 2, specSample 3, specSample 4, specSample 5,
   specSample 6, specSample 7, specSample 8, specSample 9, specSample 10]

end Ntpcl

namespace Ntpcl

theorem length_insertByRTT (s : sampleResult) (l : List sampleResult) :
    (insertByRTT s l).length = l.length + 1 := by
  induction l with
  | nil => rfl
  | cons t ts ih =>
    simp only [insertByRTT]
    split
    · simp
    · simp [ih]

theorem length_sortByRTT (l : List sampleResult) :
    (sortByRTT l).length = l.length := by
  induction l with
  | nil => rfl
  | cons s ss ih => simp [sortByRTT, length_insertByRTT, ih]

theorem mem_insertByRTT {x s : sampleResult} {l : List sampleResult} :
    x ∈ insertByRTT s l ↔ x = s ∨ x ∈ l := by
  induction l with
  | nil => simp [insertByRTT]
  | cons t ts ih =>
    simp only [insertByRTT]
    split
    · simp [List.mem_cons]
    · simp only [List.mem_cons, ih]
      tauto

theorem mem_sortByRTT {x : sampleResult} {l : List sampleResult} :
    x ∈ sortByRTT l ↔ x ∈ l := by
  induction l with
  | nil => simp [sortByRTT]
  | cons s ss ih => simp [sortByRTT, mem_insertByRTT, ih]

theorem length_retainedSamples {samples : List sampleResult}
    (h : sampleCount ≤ samples.length) :
    (retainedSamples samples).length = 6 := by
  have h10 : (10 : Nat) ≤ samples.length := h
  simp only [retainedSamples, List.length_drop, List.length_take, length_sortByRTT,
    sampleCount]
  omega

theorem mem_of_mem_retainedSamples {x : sampleResult} {samples : List sampleResult}
    (h : x ∈ retainedSamples samples) : x ∈ samples := by
  have h1 : x ∈ (sortByRTT samples).take (4 * sampleCount / 5) :=
    List.mem_of_mem_drop h
  have h2 : x ∈ sortByRTT samples := List.mem_of_mem_take h1
  exact mem_sortByRTT.mp h2

theorem foldl_add_eq (f : sampleResult → Int) (l : List sampleResult) (a : Int) :
    l.foldl (fun acc s => acc + f s) a = a + (l.map f).sum := by
  induction l generalizing a with
  | nil => simp
  | cons s ss ih => simp [ih]; ring

theorem le_foldl_latestStep_init (l : List sampleResult) (a : Int) :
    a ≤ l.foldl latestStep a := by
  induction l generalizing a with
  | nil => simp
  | cons s ss ih =>
    refine le_trans ?_ (ih (latestStep a s))
    simp only [latestStep]
    split
    · omega
    · omega

theorem timestamp_le_foldl_latestStep {x : sampleResult} (l : List sampleResult)
    (a : Int) (h : x ∈ l) : x.timestamp ≤ l.foldl latestStep a := by
  induction l generalizing a with
  | nil => cases h
  | cons t ts ih =>
    rcases List.mem_cons.mp h with h1 | h2
    · subst h1
      refine le_trans ?_ (le_foldl_latestStep_init ts (latestStep a x))
      simp only [latestStep]
      split
      · omega
      · omega
    · exact ih (latestStep a t) h2

theorem foldl_latestStep_le (l : List sampleResult) (a t : Int)
    (ha : a ≤ t) (hl : ∀ s ∈ l, s.timestamp ≤ t) :
    l.foldl latestStep a ≤ t := by
  induction l generalizing a with
  | nil => simpa using ha
  | cons s ss ih =>
    simp only [List.foldl_cons]
    apply ih
    · have hst := hl s (by simp)
      simp only [latestStep]
      split
      · omega
      · omega
    · intro x hx
      exact hl x (by simp [hx])

theorem foldl_latestStep_eq_init_or_mem (l : List sampleResult) (a : Int) :
    l.foldl latestStep a = a ∨ l.foldl latestStep a ∈ l.map sampleResult.timestamp := by
  induction l generalizing a with
  | nil => left; rfl
  | cons s ss ih =>
    simp only [List.foldl_cons, List.map_cons, List.mem_cons]
    rcases ih (latestStep a s) with h | h
    · rw [h]
      simp only [latestStep]
      split
      · right; left; rfl
      · left; rfl
    · right; right; exact h

theorem estimateFromRetained_latest (now : Int) (vs : List sampleResult) :
    (estimateFromRetained now vs).latest = vs.foldl latestStep goZeroTimeNs := rfl

theorem estimateFromRetained_avgOffset (now : Int) (vs : List sampleResult) :
    (estimateFromRetained now vs).avgOffset =
      Int.tdiv ((vs.map sampleResult.offset).sum) (vs.length : Int) := by
  show Int.tdiv (vs.foldl (fun acc s => acc + s.offset) 0) (vs.length : Int) = _
  rw [foldl_add_eq sampleResult.offset]
  simp

theorem estimateFromRetained_avgRTT (now : Int) (vs : List sampleResult) :
    (estimateFromRetained now vs).avgRTT =
      Int.tdiv ((vs.map sampleResult.rtt).sum) (vs.length : Int) := by
  show Int.tdiv (vs.foldl (fun acc s => acc + s.rtt) 0) (vs.length : Int) = _
  rw [foldl_add_eq sampleResult.rtt]
  simp

theorem estimateFromRetained_adjusted (now : Int) (vs : List sampleResult) :
    (estimateFromRetained now vs).adjusted =
      now + (estimateFromRetained now vs).avgOffset
        - (now - (estimateFromRetained now vs).latest) := rfl

end Ntpcl

namespace Ntpcl

/-- C1 counterexample: at the spec's worked example batch (rtts 1..10 ms,
offsets all 100 ms) the retained trimmed subset has 6 elements, not the 8 the
claim states. -/
theorem c1_counterexample :
    (retainedSamples specBatch).length = 6 ∧ (retainedSamples specBatch).length ≠ 8 := by
  constructor
  · decide
  · decide

/-- C1 (amended): on the worked example batch the estimator retains exactly the
samples at indices 2..7 of the rtt-sorted order (6 samples, the middle 60% of
10), and the estimated mean offset is exactly 100 ms. -/
theorem c1_trim_and_mean_offset :
    retainedSamples specBatch =
      [specSample 3, specSample 4, specSample 5, specSample 6, specSample 7,
       specSample 8]
    ∧ (estimateFromRetained 1000 (retainedSamples specBatch)).avgOffset = 100000000
    ∧ gatherHighAccuracyEstimate 1000 specBatch =
        Except.ok { adjusted := 100000008, avgOffset := 100000000, avgRTT := 5500000,
                    latest := 8 } := by
  exact ⟨rfl, rfl, rfl⟩

/-- C2: whenever the batch passes the quorum check and every sample was
observed after Go's zero time, the estimator succeeds and its resolved time
equals now + mean_offset - (now - latest_observed_at), where the mean offset is
the truncating arithmetic mean of the retained offsets and the latest
observation instant is a retained timestamp that bounds all retained
timestamps. -/
theorem c2_resolved_time_formula (now : Int) (samples : List sampleResult)
    (hlen : sampleCount ≤ samples.length)
    (hts : ∀ s ∈ samples, goZeroTimeNs < s.timestamp) :
    ∃ r, gatherHighAccuracyEstimate now samples = Except.ok r
      ∧ r.avgOffset = Int.tdiv (((retainedSamples samples).map sampleResult.offset).sum)
          (((retainedSamples samples).length : Int))
      ∧ r.latest ∈ (retainedSamples samples).map sampleResult.timestamp
      ∧ (∀ s ∈ retainedSamples samples, s.timestamp ≤ r.latest)
      ∧ r.adjusted = now + r.avgOffset - (now - r.latest) := by
  have hnot : ¬ samples.length < sampleCount := by omega
  have h6 : (retainedSamples samples).length = 6 := length_retainedSamples hlen
  refine ⟨estimateFromRetained now (retainedSamples samples), ?_, ?_, ?_, ?_, ?_⟩
  · unfold gatherHighAccuracyEstimate
    rw [if_neg hnot]
  · exact estimateFromRetained_avgOffset now (retainedSamples samples)
  · rw [estimateFromRetained_latest]
    rcases foldl_latestStep_eq_init_or_mem (retainedSamples samples) goZeroTimeNs with
      h | h
    · exfalso
      obtain ⟨x, hx⟩ : ∃ x, x ∈ retainedSamples samples := by
        rcases hr : retainedSamples samples with _ | ⟨y, ys⟩
        · rw [hr] at h6; simp at h6
        · exact ⟨y, by simp [hr]⟩
      have hub := timestamp_le_foldl_latestStep (retainedSamples samples) goZeroTimeNs hx
      have hgt := hts x (mem_of_mem_retainedSamples hx)
      omega
    · exact h
  · intro s hs
    rw [estimateFromRetained_latest]
    exact timestamp_le_foldl_latestStep (retainedSamples samples) goZeroTimeNs hs
  · exact estimateFromRetained_adjusted now (retainedSamples samples)

/-- C2 witness: the formula at the spec's worked example batch with now = 1000 ns. -/
theorem c2_witness :
    ∃ r, gatherHighAccuracyEstimate 1000 specBatch = Except.ok r
      ∧ r.avgOffset = Int.tdiv (((retainedSamples specBatch).map sampleResult.offset).sum)
          (((retainedSamples specBatch).length : Int))
      ∧ r.latest ∈ (retainedSamples specBatch).map sampleResult.timestamp
      ∧ (∀ s ∈ retainedSamples specBatch, s.timestamp ≤ r.latest)
      ∧ r.adjusted = 1000 + r.avgOffset - (1000 - r.latest) :=
  c2_resolved_time_formula 1000 specBatch (by decide) (by decide)

/-- C3: whenever fewer samples than sampleCount were collected the estimator
returns the insufficient-samples error and no estimate; in particular this
covers the zero-sample batch. -/
theorem c3_insufficient_samples (now : Int) (samples : List sampleResult)
    (h : samples.length < sampleCount) :
    gatherHighAccuracyEstimate now samples =
      Except.error (GatherErr.insufficientSamples samples.length sampleCount) := by
  unfold gatherHighAccuracyEstimate
  rw [if_pos h]

/-- C3 witness: the empty batch yields the insufficient-samples error, never a
zero-value estimate. -/
theorem c3_witness :
    gatherHighAccuracyEstimate 0 [] =
      Except.error (GatherErr.insufficientSamples 0 sampleCount) :=
  c3_insufficient_samples 0 [] (by decide)

end Ntpcl

namespace Ntpcl

/-- C4: for every Unix timestamp in the protocol range, parsing the 4-byte
big-endian encoding of t + 2208988800 yields exactly t, and parsing fewer than
4 bytes fails with the invalid-response-size error. -/
theorem c4_time_protocol_roundtrip (t : Int)
    (h0 : 0 ≤ t + 2208988800) (h1 : t + 2208988800 < 4294967296) :
    parseTimeProtocolResponse (encodeBE32 (t + 2208988800).toNat) = Except.ok t
    ∧ ∀ buf : List Nat, buf.length < 4 →
        parseTimeProtocolResponse buf = Except.error TimeProtoErr.invalidResponseSize := by
  constructor
  · have hn : (((t + 2208988800).toNat : Int)) = t + 2208988800 :=
      Int.toNat_of_nonneg h0
    have hdec : ((((t + 2208988800).toNat / 16777216 % 256) * 256
        + (t + 2208988800).toNat / 65536 % 256) * 256
        + (t + 2208988800).toNat / 256 % 256) * 256
        + (t + 2208988800).toNat % 256 = (t + 2208988800).toNat := by
      omega
    simp only [encodeBE32, parseTimeProtocolResponse]
    rw [hdec, hn]
    congr 1
    ring
  · intro buf h
    rcases buf with _ | ⟨a, _ | ⟨b, _ | ⟨c, _ | ⟨d, tl⟩⟩⟩⟩
    · rfl
    · rfl
    · rfl
    · rfl
    · simp only [List.length_cons] at h
      omega

/-- C4 witness: the round trip at t = 1000000000, and a 3-byte read failing. -/
theorem c4_witness :
    parseTimeProtocolResponse (encodeBE32 ((1000000000 : Int) + 2208988800).toNat) =
      Except.ok 1000000000
    ∧ parseTimeProtocolResponse [0, 0, 0] =
        Except.error TimeProtoErr.invalidResponseSize :=
  ⟨(c4_time_protocol_roundtrip 1000000000 (by decide) (by decide)).1,
   (c4_time_protocol_roundtrip 1000000000 (by decide) (by decide)).2 [0, 0, 0]
     (by decide)⟩

/-- C5 counterexample: in the current timeutils fetch path a failed NTP query is
not retried as SNTP: exactly one query is issued and the error is surfaced,
even though the legacy path would have issued a second query. -/
theorem c5_counterexample :
    FetchTimeFromNTP_singleShot 0 none = (Except.error FetchErr.queryError, 1)
    ∧ (fetchTimeFromNTP_legacy 0 none (some { clockOffset := 5, rtt := 7 })).2 = 2
    ∧ (1 : Nat) ≠ 2 := by
  exact ⟨rfl, rfl, by decide⟩

/-- C5 (amended): the once-only NTP-to-SNTP retry exists only in the legacy
main-package fetch path, where a failed first query leads to exactly one more
query labelled SNTP and an error only when both fail; the current
timeutils.FetchTimeFromNTP issues exactly one query and surfaces the failure
with no retry. -/
theorem c5_retry_policy (now : Int) (q2 : Option NtpResp) :
    (fetchTimeFromNTP_legacy now none q2).2 = 2
    ∧ (∀ r, q2 = some r →
        (fetchTimeFromNTP_legacy now none q2).1 =
          Except.ok (now + r.clockOffset, r.rtt, "SNTP"))
    ∧ (q2 = none →
        (fetchTimeFromNTP_legacy now none q2).1 = Except.error FetchErr.queryError)
    ∧ FetchTimeFromNTP_singleShot now none = (Except.error FetchErr.queryError, 1) := by
  refine ⟨?_, ?_, ?_, rfl⟩
  · cases q2 <;> rfl
  · intro r h
    subst h
    rfl
  · intro h
    subst h
    rfl

/-- C5 witness: the legacy path at a concrete successful second query, and the
current path at a failed query. -/
theorem c5_witness :
    (fetchTimeFromNTP_legacy 0 none (some { clockOffset := 3, rtt := 4 })).1 =
      Except.ok (0 + ({ clockOffset := 3, rtt := 4 } : NtpResp).clockOffset,
        ({ clockOffset := 3, rtt := 4 } : NtpResp).rtt, "SNTP")
    ∧ FetchTimeFromNTP_singleShot 0 none = (Except.error FetchErr.queryError, 1) :=
  ⟨(c5_retry_policy 0 (some { clockOffset := 3, rtt := 4 })).2.1
      { clockOffset := 3, rtt := 4 } rfl,
   (c5_retry_policy 0 (some { clockOffset := 3, rtt := 4 })).2.2.2⟩

/-- C6 counterexample: at the worked example batch the mean retained round-trip
time is 5.5 ms, yet the high-accuracy fetch returns a round-trip time of 0. -/
theorem c6_counterexample :
    FetchTimeFromNTP_highAccuracy 1000 specBatch = Except.ok (100000008, 0)
    ∧ (estimateFromRetained 1000 (retainedSamples specBatch)).avgRTT = 5500000
    ∧ (0 : Int) ≠ 5500000 := by
  exact ⟨rfl, rfl, by decide⟩

/-- C6 (amended): whenever the estimator succeeds, the high-accuracy fetch
returns its resolved time paired with a round-trip time of 0; the mean retained
round-trip time is computed and displayed by the estimator but not propagated
into the returned value. -/
theorem c6_high_accuracy_rtt_zero (now : Int) (samples : List sampleResult)
    (r : estimateResult) (h : gatherHighAccuracyEstimate now samples = Except.ok r) :
    FetchTimeFromNTP_highAccuracy now samples = Except.ok (r.adjusted, 0) := by
  unfold FetchTimeFromNTP_highAccuracy
  rw [h]

/-- C6 witness: the zero round-trip time at the worked example batch. -/
theorem c6_witness :
    FetchTimeFromNTP_highAccuracy 1000 specBatch =
      Except.ok (({ adjusted := 100000008, avgOffset := 100000000,
                    avgRTT := 5500000, latest := 8 } : estimateResult).adjusted, 0) :=
  c6_high_accuracy_rtt_zero 1000 specBatch
    { adjusted := 100000008, avgOffset := 100000000, avgRTT := 5500000, latest := 8 }
    rfl

end Ntpcl

namespace Ntpcl

/-- C7: with high_accuracy set and the single selected source being HTTP,
Daytime, or Time Protocol (NTP and Windows-time-server fields empty, in each
of the three cases), run fails with the incompatible-flag error and the fetch
counter stays at zero. -/
theorem c7_incompatible_flag (cfg : Config) (f : Except FetchErr Int)
    (hha : cfg.highAccuracy = true)
    (hntp : cfg.ntpServer = "") (hwin : cfg.windowsTimeServer = "")
    (hsrc : (cfg.httpURL ≠ "" ∧ cfg.daytimeServer = "" ∧ cfg.timeProtocolServer = "")
          ∨ (cfg.httpURL = "" ∧ cfg.daytimeServer ≠ "" ∧ cfg.timeProtocolServer = "")
          ∨ (cfg.httpURL = "" ∧ cfg.daytimeServer = "" ∧ cfg.timeProtocolServer ≠ "")) :
    run cfg f = (Except.error RunErr.incompatibleFlag, 0) := by
  have hcount : countNonEmptySources (sourceFields cfg) = 1 := by
    rcases hsrc with ⟨h1, h2, h3⟩ | ⟨h1, h2, h3⟩ | ⟨h1, h2, h3⟩ <;>
      simp [countNonEmptySources, sourceFields, h1, h2, h3, hntp, hwin]
  unfold run
  rw [hcount]
  simp [hha, hntp, hwin]

/-- C7 witness: an HTTP-only configuration with high accuracy. -/
theorem c7_witness :
    run { ntpServer := "", httpURL := "http://example.com", daytimeServer := "",
          timeProtocolServer := "", windowsTimeServer := "", highAccuracy := true }
        (Except.ok 0) =
      (Except.error RunErr.incompatibleFlag, 0) :=
  c7_incompatible_flag _ _ rfl rfl rfl (Or.inl ⟨by decide, rfl, rfl⟩)

/-- C8: any configuration with two or more non-empty source fields makes run
fail with the conflicting-sources error while the fetch counter stays at zero,
and any configuration with exactly one non-empty source field never yields the
conflicting-sources error. -/
theorem c8_conflicting_sources (cfg : Config) (f : Except FetchErr Int) :
    (2 ≤ countNonEmptySources (sourceFields cfg) →
      run cfg f = (Except.error RunErr.conflictingSources, 0))
    ∧ (countNonEmptySources (sourceFields cfg) = 1 →
      (run cfg f).1 ≠ Except.error RunErr.conflictingSources) := by
  constructor
  · intro h
    unfold run
    rw [if_pos (by omega)]
  · intro h
    unfold run
    rw [if_neg (by omega)]
    split
    · simp
    · cases f <;> simp

/-- C8 witness: a two-source configuration conflicts with zero fetch calls; a
one-source configuration does not conflict. -/
theorem c8_witness :
    run { ntpServer := "a", httpURL := "b", daytimeServer := "",
          timeProtocolServer := "", windowsTimeServer := "", highAccuracy := false }
        (Except.ok 0) =
      (Except.error RunErr.conflictingSources, 0)
    ∧ (run { ntpServer := "a", httpURL := "", daytimeServer := "",
             timeProtocolServer := "", windowsTimeServer := "",
             highAccuracy := false }
        (Except.ok 0)).1 ≠ Except.error RunErr.conflictingSources :=
  ⟨(c8_conflicting_sources _ _).1 (by decide),
   (c8_conflicting_sources _ _).2 (by decide)⟩

/-- C9: once the quorum check passes, the retained middle-60% subset is
non-empty (it has exactly 6 of the 10 samples), so the divisor of both mean
computations is positive and the estimator succeeds rather than dividing by
zero or failing. -/
theorem c9_no_division_by_zero (now : Int) (samples : List sampleResult)
    (h : sampleCount ≤ samples.length) :
    0 < (retainedSamples samples).length
    ∧ gatherHighAccuracyEstimate now samples =
        Except.ok (estimateFromRetained now (retainedSamples samples)) := by
  have h6 := length_retainedSamples h
  have hnot : ¬ samples.length < sampleCount := by omega
  constructor
  · omega
  · unfold gatherHighAccuracyEstimate
    rw [if_neg hnot]

/-- C9 witness: the quorum precondition and positive retained length at the
worked example batch. -/
theorem c9_witness :
    0 < (retainedSamples specBatch).length
    ∧ gatherHighAccuracyEstimate 1000 specBatch =
        Except.ok (estimateFromRetained 1000 (retainedSamples specBatch)) :=
  c9_no_division_by_zero 1000 specBatch (by decide)

/-- C10: a sample records observed_at as start + rtt/2, so whenever its query
start does not follow its response instant and that response instant does not
follow the estimation instant, observed_at never lies in the future: every
sample timestamp is at most the estimation instant and the elapsed-time
correction now - latest_observed_at over the retained samples is non-negative. -/
theorem c10_observed_at_not_future (samples : List sampleResult) (tNow : Int)
    (hz : goZeroTimeNs ≤ tNow)
    (h : ∀ s ∈ samples, ∃ o st rp,
        s = mkSample o st rp ∧ st ≤ rp ∧ rp ≤ tNow) :
    (∀ s ∈ samples, s.timestamp ≤ tNow)
    ∧ 0 ≤ tNow - (retainedSamples samples).foldl latestStep goZeroTimeNs := by
  have hts : ∀ s ∈ samples, s.timestamp ≤ tNow := by
    intro s hs
    obtain ⟨o, st, rp, hEq, hle, hrp⟩ := h s hs
    subst hEq
    show st + Int.tdiv (rp - st) 2 ≤ tNow
    have hnn : (0 : Int) ≤ rp - st := by omega
    have htd : Int.tdiv (rp - st) 2 = (rp - st) / 2 :=
      Int.tdiv_eq_ediv hnn (by omega)
    have hhalf : (rp - st) / 2 ≤ rp - st := Int.ediv_le_self 2 hnn
    omega
  refine ⟨hts, ?_⟩
  have hle : (retainedSamples samples).foldl latestStep goZeroTimeNs ≤ tNow :=
    foldl_latestStep_le (retainedSamples samples) goZeroTimeNs tNow hz
      (fun s hs => hts s (mem_of_mem_retainedSamples hs))
  omega

/-- C10 witness: a one-sample batch observed before the estimation instant. -/
theorem c10_witness :
    (∀ s ∈ [mkSample 5 10 14], s.timestamp ≤ (20 : Int))
    ∧ 0 ≤ (20 : Int) - (retainedSamples [mkSample 5 10 14]).foldl latestStep goZeroTimeNs :=
  c10_observed_at_not_future [mkSample 5 10 14] 20 (by decide)
    (by
      intro s hs
      exact ⟨5, 10, 14, by simpa using hs, by decide, by decide⟩)

end Ntpcl
